import Mathlib

/-!
Verification of the `kgeo` geodesic solver (a Go package implementing
Karney's algorithm for the direct geodesic problem on a spheroid).

The Go source works on IEEE `float64`; we embed it shallowly over `ℝ`,
translating each function of `geodesic.go` and of the series file into a
Lean definition with the same structure.  `math.Atan2`, `math.Hypot`,
`math.Copysign` and the zero-normalisation helper `nnz` are embedded by
their real-valued mathematical definitions (matching the Go special cases
at zero arguments).  Functions of the repository that are called from
`Direct` but whose defining file is not part of the sources we were given
(`sumSin` and the `coeffA3`/`coeffC3` tables) are modelled from the spec;
each such definition carries a doc comment explaining exactly what was
modelled.  Panics on invalid arguments are embedded as `Option`:
`none` is the InvalidArgument condition.
-/

noncomputable section

namespace Kgeo

open Classical

/-- Real-valued embedding of Go `math.Atan2 y x` (range `(-π, π]`,
`Atan2 0 x = 0` for `x ≥ 0`, `Atan2 0 x = π` for `x < 0`,
`Atan2 y 0 = ±π/2` for `y ≠ 0`, `Atan2 0 0 = 0`). -/
def atan2 (y x : ℝ) : ℝ :=
  if 0 < x then Real.arctan (y / x)
  else if x < 0 then
    (if 0 ≤ y then Real.arctan (y / x) + Real.pi else Real.arctan (y / x) - Real.pi)
  else
    (if 0 < y then Real.pi / 2 else if y < 0 then -(Real.pi / 2) else 0)

/-- Real-valued embedding of Go `math.Hypot x y`. -/
def hypot (x y : ℝ) : ℝ :=
  Real.sqrt (x ^ 2 + y ^ 2)

/-- Real-valued embedding of Go `math.Copysign mag x` (sign of `x`;
over `ℝ` there is no negative zero, so `x = 0` gives the positive sign,
matching Go at `+0`). -/
def copysign (mag x : ℝ) : ℝ :=
  if x < 0 then -|mag| else |mag|

/-- Source `sq` -- square. -/
def sq (x : ℝ) : ℝ :=
  x * x

/-- Source `nnz` -- no negative zero.  Over `ℝ` this is the identity. -/
def nnz (x : ℝ) : ℝ :=
  if x = 0 then 0 else x

/-- Source `seriesA1`. -/
def seriesA1 (ε : ℝ) : ℝ :=
  (1 + ε ^ 2 * (1 / 4 + ε ^ 2 * (1 / 64 + ε ^ 2 * (1 / 256 + ε ^ 2 * (25 / 16384))))) / (1 - ε)

/-- Source `seriesA2`. -/
def seriesA2 (ε : ℝ) : ℝ :=
  (1 - ε ^ 2 * (3 / 4 + ε ^ 2 * (7 / 64 + ε ^ 2 * (11 / 256 + ε ^ 2 * (375 / 16384))))) / (1 + ε)

/-- Source `seriesA3` (the standalone form, a polynomial in `n` and `ε`). -/
def seriesA3 (n ε : ℝ) : ℝ :=
  let c1 := 1 / 2 - 1 / 2 * n
  let c2 := 1 / 4 + n * (1 / 8 + n * (-3 / 8))
  let c3 := 1 / 16 + n * (3 / 16 + n * (1 / 16 + n * (-5 / 16)))
  let c4 := 3 / 64 + n * (1 / 32 + n * (5 / 32 + n * (5 / 128 + n * (-35 / 128))))
  let c5 := 3 / 128 + n * (5 / 128 + n * (5 / 256 + n * (35 / 256 + n * (7 / 256))))
  let c6 := 5 / 256 + n * (15 / 1024 + n * (35 / 1024 + n * (7 / 512 + n * (63 / 512))))
  let c7 := 25 / 2048 + n * (35 / 2048 + n * (21 / 2048 + n * (63 / 2048 + n * (21 / 2048))))
  let c8 := 175 / 16384 + n * (35 / 4096 + n * (63 / 4096 + n * (63 / 8192 + n * (231 / 8192))))
  1 - ε * (c1 + ε * (c2 + ε * (c3 + ε * (c4 + ε * (c5 + ε * (c6 + ε * (c7 + ε * c8)))))))

/-- Source `seriesC1` (8 coefficients as a function of the index). -/
def seriesC1 (ε : ℝ) : Fin 8 → ℝ :=
  ![ε * (-1 / 2 + ε ^ 2 * (3 / 16 + ε ^ 2 * (-1 / 32 + ε ^ 2 * (19 / 2048)))),
    ε ^ 2 * (-1 / 16 + ε ^ 2 * (1 / 32 + ε ^ 2 * (-9 / 2048 + ε ^ 2 * (7 / 4096)))),
    ε ^ 3 * (-1 / 48 + ε ^ 2 * (3 / 256 + ε ^ 2 * (-3 / 2048))),
    ε ^ 4 * (-5 / 512 + ε ^ 2 * (3 / 512 + ε ^ 2 * (-11 / 16384))),
    ε ^ 5 * (-7 / 1280 + ε ^ 2 * (7 / 2048)),
    ε ^ 6 * (-7 / 2048 + ε ^ 2 * (9 / 4096)),
    ε ^ 7 * (-33 / 14336),
    ε ^ 8 * (-429 / 262144)]

/-- Source `seriesC1p` (the complementary set, written C1p here). -/
def seriesC1p (ε : ℝ) : Fin 8 → ℝ :=
  ![ε * (1 / 2 + ε ^ 2 * (-9 / 32 + ε ^ 2 * (205 / 1536 + ε ^ 2 * (-4879 / 73728)))),
    ε ^ 2 * (5 / 16 + ε ^ 2 * (-37 / 96 + ε ^ 2 * (1335 / 4096 + ε ^ 2 * (-86171 / 368640)))),
    ε ^ 3 * (29 / 96 + ε ^ 2 * (-75 / 128 + ε ^ 2 * (2901 / 4096))),
    ε ^ 4 * (539 / 1536 + ε ^ 2 * (-2391 / 2560 + ε ^ 2 * (1082857 / 737280))),
    ε ^ 5 * (3467 / 7680 + ε ^ 2 * (-28223 / 18432)),
    ε ^ 6 * (38081 / 61440 + ε ^ 2 * (-733437 / 286720)),
    ε ^ 7 * (459485 / 516096),
    ε ^ 8 * (109167851 / 82575360)]

/-- Source `seriesC2`. -/
def seriesC2 (ε : ℝ) : Fin 8 → ℝ :=
  ![ε * (1 / 2 + ε ^ 2 * (1 / 16 + ε ^ 2 * (1 / 32 + ε ^ 2 * (41 / 2048)))),
    ε ^ 2 * (3 / 16 + ε ^ 2 * (1 / 32 + ε ^ 2 * (35 / 2048 + ε ^ 2 * (47 / 4096)))),
    ε ^ 3 * (5 / 48 + ε ^ 2 * (5 / 256 + ε ^ 2 * (23 / 2048))),
    ε ^ 4 * (35 / 512 + ε ^ 2 * (7 / 512 + ε ^ 2 * (133 / 16384))),
    ε ^ 5 * (63 / 1280 + ε ^ 2 * (21 / 2048)),
    ε ^ 6 * (77 / 2048 + ε ^ 2 * (33 / 4096)),
    ε ^ 7 * (429 / 14336),
    ε ^ 8 * (6435 / 262144)]

/-- Modelled from the spec: the file defining the `coeffC3` generator
(`newCoeffC3`) and its `seriesC3` evaluator is not among the sources;
only the call site `g.cC3.seriesC3(ε)` in `Direct` is.  The spec (data
model and series-library sections) states that C3 is an ordered set of up
to 8 coefficients for the longitude-correction integral, entry `i`
carrying the factor `ε^(i+1)` whose multiplier is a polynomial in the
third flattening `n` taken from the Karney series reference, so that the
whole set vanishes in the spherical limit `ε = 0`.  The exact rational
multiplier tables are not recoverable from the given sources; we model
entry `i` as `ε^(i+1) * ((1 - n) / (4 * 2^i))`, a definite table with the
documented shape.  No claim settled below depends on the multiplier
values, only on the `ε^(i+1)` factor and on the I3 combination shape. -/
def seriesC3 (n ε : ℝ) : Fin 8 → ℝ :=
  fun i => ε ^ ((i : ℕ) + 1) * ((1 - n) / (4 * 2 ^ (i : ℕ)))

/-- Modelled from the spec: `sumSin` is called by `Direct` and `hybrid`
but its defining file is not among the sources.  The trigonometric
summation section of the spec specifies its value as
`Σ C[i]·sin((2i+2)σ)` over the coefficient set, evaluated by a
Clenshaw-style backward recurrence; over `ℝ` the recurrence computes
exactly this sum, which we take as the definition. -/
def sumSin (σ : ℝ) (C : Fin 8 → ℝ) : ℝ :=
  ∑ i : Fin 8, C i * Real.sin ((2 * (i : ℕ) + 2) * σ)

/-- Source struct `Geodesic`.  The Go struct additionally stores the
precomputed coefficient tables `cA3`, `cC3`, which are pure functions of
`n` (built once in `NewGeodesic`); their solve-time evaluations
`g.cA3.seriesA3(ε)` and `g.cC3.seriesC3(ε)` are embedded below as
`seriesA3 g.n ε` and `seriesC3 g.n ε`. -/
structure Geodesic where
  a : ℝ
  b : ℝ
  f : ℝ
  n : ℝ
  e2 : ℝ
  ep2 : ℝ

/-- Source struct `Solution`. -/
structure Solution where
  Lat1 : ℝ
  Lon1 : ℝ
  Azi1 : ℝ
  Lat2 : ℝ
  Lon2 : ℝ
  Azi2 : ℝ
  S12 : ℝ

/-- Validation predicate of `NewGeodesic` (the two panic guards). -/
def validParams (a f : ℝ) : Prop :=
  (1 ≤ a ∧ a ≤ 1e10) ∧ (0 ≤ f ∧ f ≤ 1 / 150)

/-- The sub-threshold flattening adjustment of `NewGeodesic`:
`if f <= 1.0/(1<<26) { f = 0 }`. -/
def zeroF (f : ℝ) : ℝ :=
  if f ≤ 1 / 2 ^ 26 then 0 else f

/-- The constructed value of `NewGeodesic` after validation (field
computations of the Go struct literal, applied to the adjusted `f`). -/
def mkGeodesicCore (a f : ℝ) : Geodesic :=
  ⟨a, a * (1 - zeroF f), zeroF f, zeroF f / (2 - zeroF f), zeroF f * (2 - zeroF f),
    zeroF f * (2 - zeroF f) / ((1 - zeroF f) * (1 - zeroF f))⟩

/-- Source `NewGeodesic`; the panic on invalid `a` or `f` is `none`. -/
def mkGeodesic (a f : ℝ) : Option Geodesic :=
  if validParams a f then some (mkGeodesicCore a f) else none

/-- Validation predicate of `Direct` (the four panic guards). -/
def validDirect (lat1 lon1 azi1 s12 : ℝ) : Prop :=
  (-90 ≤ lat1 ∧ lat1 ≤ 90) ∧ (-180 ≤ lon1 ∧ lon1 ≤ 180) ∧
    (-180 ≤ azi1 ∧ azi1 ≤ 180) ∧ (0 ≤ s12 ∧ s12 ≤ 1e11)

/-- The near-polar latitude adjustment block of `Direct`
(`const ε = 1.0/(1<<38)`). -/
def normLat (lat1 : ℝ) : ℝ :=
  if |lat1| > 90 * (1 - 1 / 2 ^ 38) then copysign (90 * (1 - 1 / 2 ^ 38)) lat1 else lat1

/-- `Direct`: `φ1 = lat1 * (π/180)` (here `lat` is the adjusted latitude). -/
def dirφ1 (lat : ℝ) : ℝ :=
  lat * (Real.pi / 180)

/-- `Direct`: `α1 = azi1 * (π/180)`. -/
def dirα1 (azi : ℝ) : ℝ :=
  azi * (Real.pi / 180)

/-- `Direct`: `β1 = atan2((1-f)*sinφ1, cosφ1)`. -/
def dirβ1 (g : Geodesic) (lat : ℝ) : ℝ :=
  atan2 ((1 - g.f) * Real.sin (dirφ1 lat)) (Real.cos (dirφ1 lat))

/-- `Direct`: `α0 = atan2(sinα1*cosβ1, hypot(cosα1, sinα1*sinβ1))`. -/
def dirα0 (g : Geodesic) (lat azi : ℝ) : ℝ :=
  atan2 (Real.sin (dirα1 azi) * Real.cos (dirβ1 g lat))
    (hypot (Real.cos (dirα1 azi)) (Real.sin (dirα1 azi) * Real.sin (dirβ1 g lat)))

/-- `Direct`: `σ1 = atan2(sinβ1, cosα1*cosβ1)`. -/
def dirσ1 (g : Geodesic) (lat azi : ℝ) : ℝ :=
  atan2 (Real.sin (dirβ1 g lat)) (Real.cos (dirα1 azi) * Real.cos (dirβ1 g lat))

/-- `Direct`: `ω1 = atan2(sinα0*sinσ1, cosσ1)`. -/
def dirω1 (g : Geodesic) (lat azi : ℝ) : ℝ :=
  atan2 (Real.sin (dirα0 g lat azi) * Real.sin (dirσ1 g lat azi)) (Real.cos (dirσ1 g lat azi))

/-- `Direct`: `k2 = ep2 * cosα0 * cosα0`. -/
def dirk2 (g : Geodesic) (lat azi : ℝ) : ℝ :=
  g.ep2 * Real.cos (dirα0 g lat azi) * Real.cos (dirα0 g lat azi)

/-- `Direct`: `tt = sqrt(1+k2); ε = (tt-1)/(tt+1)`. -/
def dirε (g : Geodesic) (lat azi : ℝ) : ℝ :=
  (Real.sqrt (1 + dirk2 g lat azi) - 1) / (Real.sqrt (1 + dirk2 g lat azi) + 1)

/-- `Direct`: `A1 = seriesA1(ε)`. -/
def dirA1 (g : Geodesic) (lat azi : ℝ) : ℝ :=
  seriesA1 (dirε g lat azi)

/-- `Direct`: `I1σ1 = A1 * (σ1 + sumSin(σ1, C1))`. -/
def dirI1σ1 (g : Geodesic) (lat azi : ℝ) : ℝ :=
  dirA1 g lat azi * (dirσ1 g lat azi + sumSin (dirσ1 g lat azi) (seriesC1 (dirε g lat azi)))

/-- `Direct`: `s1 = b * I1σ1`. -/
def dirs1 (g : Geodesic) (lat azi : ℝ) : ℝ :=
  g.b * dirI1σ1 g lat azi

/-- `Direct`: `s2 = s1 + s12`. -/
def dirs2 (g : Geodesic) (lat azi s12 : ℝ) : ℝ :=
  dirs1 g lat azi + s12

/-- `Direct`: `τ2 = s2 / (b*A1)`. -/
def dirτ2 (g : Geodesic) (lat azi s12 : ℝ) : ℝ :=
  dirs2 g lat azi s12 / (g.b * dirA1 g lat azi)

/-- `Direct`: `σ2 = τ2 + sumSin(τ2, C1p)`. -/
def dirσ2 (g : Geodesic) (lat azi s12 : ℝ) : ℝ :=
  dirτ2 g lat azi s12 + sumSin (dirτ2 g lat azi s12) (seriesC1p (dirε g lat azi))

/-- `Direct`: `α2 = atan2(sinα0, cosα0*cosσ2)`. -/
def dirα2 (g : Geodesic) (lat azi s12 : ℝ) : ℝ :=
  atan2 (Real.sin (dirα0 g lat azi)) (Real.cos (dirα0 g lat azi) * Real.cos (dirσ2 g lat azi s12))

/-- `Direct`: `β2 = atan2(cosα0*sinσ2, hypot(cosα0*cosσ2, sinα0))`. -/
def dirβ2 (g : Geodesic) (lat azi s12 : ℝ) : ℝ :=
  atan2 (Real.cos (dirα0 g lat azi) * Real.sin (dirσ2 g lat azi s12))
    (hypot (Real.cos (dirα0 g lat azi) * Real.cos (dirσ2 g lat azi s12)) (Real.sin (dirα0 g lat azi)))

/-- `Direct`: `ω2 = atan2(sinα0*sinσ2, cosσ2)`. -/
def dirω2 (g : Geodesic) (lat azi s12 : ℝ) : ℝ :=
  atan2 (Real.sin (dirα0 g lat azi) * Real.sin (dirσ2 g lat azi s12)) (Real.cos (dirσ2 g lat azi s12))

/-- `Direct`: `φ2 = atan2(sinβ2, (1-f)*cosβ2)`. -/
def dirφ2 (g : Geodesic) (lat azi s12 : ℝ) : ℝ :=
  atan2 (Real.sin (dirβ2 g lat azi s12)) ((1 - g.f) * Real.cos (dirβ2 g lat azi s12))

/-- `Direct`: `A3 = g.cA3.seriesA3(ε)` (the precomputed table evaluated
at `ε`, i.e. the A3 series in `(n, ε)`). -/
def dirA3 (g : Geodesic) (lat azi : ℝ) : ℝ :=
  seriesA3 g.n (dirε g lat azi)

/-- `Direct`: `I3σ = A3 * (σ + sumSin(σ, C3))`. -/
def dirI3 (g : Geodesic) (lat azi σ : ℝ) : ℝ :=
  dirA3 g lat azi * (σ + sumSin σ (seriesC3 g.n (dirε g lat azi)))

/-- `Direct`: `λ1 = ω1 - f*sinα0*I3σ1`. -/
def dirLam1 (g : Geodesic) (lat azi : ℝ) : ℝ :=
  dirω1 g lat azi - g.f * Real.sin (dirα0 g lat azi) * dirI3 g lat azi (dirσ1 g lat azi)

/-- `Direct`: `λ2 = ω2 - f*sinα0*I3σ2`. -/
def dirLam2 (g : Geodesic) (lat azi s12 : ℝ) : ℝ :=
  dirω2 g lat azi s12 - g.f * Real.sin (dirα0 g lat azi) * dirI3 g lat azi (dirσ2 g lat azi s12)

/-- `Direct`: `λ12 = λ2 - λ1`. -/
def dirLam12 (g : Geodesic) (lat azi s12 : ℝ) : ℝ :=
  dirLam2 g lat azi s12 - dirLam1 g lat azi

/-- The two sequential longitude adjustments of `Direct`:
`if lon2 < -180 { lon2 += 360 }; if lon2 > 180 { lon2 -= 360 }`. -/
def wrapLon (x : ℝ) : ℝ :=
  let x1 := if x < -180 then x + 360 else x
  if x1 > 180 then x1 - 360 else x1

/-- The Solution assembly of `Direct`, taking the already-adjusted
latitude `lat` (degrees); mirrors the `return Solution{...}` line. -/
def directCoreN (g : Geodesic) (lat lon1 azi1 s12 : ℝ) : Solution :=
  ⟨nnz lat, nnz lon1, nnz azi1,
    nnz (dirφ2 g lat azi1 s12 * (180 / Real.pi)),
    nnz (wrapLon (lon1 + dirLam12 g lat azi1 s12 * (180 / Real.pi))),
    nnz (dirα2 g lat azi1 s12 * (180 / Real.pi)),
    nnz s12⟩

/-- The body of `Direct` after validation: near-polar adjustment, then
the solution pipeline. -/
def directCore (g : Geodesic) (lat1 lon1 azi1 s12 : ℝ) : Solution :=
  directCoreN g (normLat lat1) lon1 azi1 s12

/-- Source `Direct`; the four panics on invalid arguments are `none`. -/
def Direct (g : Geodesic) (lat1 lon1 azi1 s12 : ℝ) : Option Solution :=
  if validDirect lat1 lon1 azi1 s12 then some (directCore g lat1 lon1 azi1 s12) else none

/-- Source `hybrid` (embedded line by line; `sincos` is the pair of
`Real.sin` and `Real.cos`). -/
def hybrid (g : Geodesic) (sinβ1 cosβ1 sinβ2 cosβ2 sinα1 cosα1 : ℝ) : ℝ × ℝ :=
  let b := g.b
  let ep2 := g.ep2
  let α0 := atan2 (sinα1 * cosβ1) (hypot cosα1 (sinα1 * sinβ1))
  let sinα0 := Real.sin α0
  let cosα0 := Real.cos α0
  let σ1 := atan2 sinβ1 (cosα1 * cosβ1)
  let α2 := atan2 sinα0 (Real.sqrt (sq (cosα1 * cosβ1) + (cosβ2 - cosβ1) * (cosβ2 + cosβ1)))
  let cosα2 := Real.cos α2
  let σ2 := atan2 sinβ2 (cosα2 * cosβ2)
  let k2 := ep2 * cosα0 * cosα0
  let tt := Real.sqrt (1 + k2)
  let ε := (tt - 1) / (tt + 1)
  let A1 := seriesA1 ε
  let C1 := seriesC1 ε
  let I1σ1 := A1 * (σ1 + sumSin σ1 C1)
  let s1 := b * I1σ1
  let I1σ2 := A1 * (σ2 + sumSin σ2 C1)
  let s2 := b * I1σ2
  (α2, s2 - s1)

/-- Embedding of Go `math.Sqrt`, which returns NaN on a negative
argument; NaN is modelled as `none`. -/
def sqrtF (x : ℝ) : Option ℝ :=
  if x < 0 then none else some (Real.sqrt x)

/-- NaN-tracking embedding of `hybrid`.  On the `hybrid` pipeline the
only NaN source is `math.Sqrt` of a negative radicand in the
triangle-NEB step; in Go, `Atan2`, `Cos` and the arithmetic operations
all propagate a NaN operand to a NaN result, so `α2`, `cosα2`, `σ2`,
`I1σ2`, `s2` and the returned `s12` are then all NaN.  This is modelled
by the `none` branch; when the radicand is nonnegative the function
computes the same real values as `hybrid`. -/
def hybridF (g : Geodesic) (sinβ1 cosβ1 sinβ2 cosβ2 sinα1 cosα1 : ℝ) : Option ℝ × Option ℝ :=
  let b := g.b
  let ep2 := g.ep2
  let α0 := atan2 (sinα1 * cosβ1) (hypot cosα1 (sinα1 * sinβ1))
  let sinα0 := Real.sin α0
  let cosα0 := Real.cos α0
  let σ1 := atan2 sinβ1 (cosα1 * cosβ1)
  let k2 := ep2 * cosα0 * cosα0
  let tt := Real.sqrt (1 + k2)
  let ε := (tt - 1) / (tt + 1)
  let A1 := seriesA1 ε
  let C1 := seriesC1 ε
  let I1σ1 := A1 * (σ1 + sumSin σ1 C1)
  let s1 := b * I1σ1
  match sqrtF (sq (cosα1 * cosβ1) + (cosβ2 - cosβ1) * (cosβ2 + cosβ1)) with
  | none => (none, none)
  | some r =>
    let α2 := atan2 sinα0 r
    let cosα2 := Real.cos α2
    let σ2 := atan2 sinβ2 (cosα2 * cosβ2)
    let I1σ2 := A1 * (σ2 + sumSin σ2 C1)
    let s2 := b * I1σ2
    (some α2, some (s2 - s1))

/-! Basic lemmas about the embedded primitives. -/

lemma nnz_eq (x : ℝ) : nnz x = x := by
  unfold nnz
  by_cases h : x = 0 <;> simp [h]

lemma atan2_mem (y x : ℝ) : -Real.pi < atan2 y x ∧ atan2 y x ≤ Real.pi := by
  have hπ := Real.pi_pos
  have h1 := Real.arctan_lt_pi_div_two (y / x)
  have h2 := Real.neg_pi_div_two_lt_arctan (y / x)
  unfold atan2
  split_ifs with hx hx2 hy hy2 hy3
  · constructor <;> linarith
  · have hyx : y / x ≤ 0 := div_nonpos_iff.mpr (Or.inl ⟨hy, le_of_lt hx2⟩)
    have h3 : Real.arctan (y / x) ≤ 0 := by
      have := Real.arctan_strictMono.monotone hyx
      rwa [Real.arctan_zero] at this
    constructor <;> linarith
  · have hyx : 0 < y / x := by
      have h4 : 0 < (-y) / (-x) := div_pos (by linarith) (by linarith)
      rwa [neg_div_neg_eq] at h4
    have h3 : 0 < Real.arctan (y / x) := by
      have := Real.arctan_strictMono hyx
      rwa [Real.arctan_zero] at this
    constructor <;> linarith
  · constructor <;> linarith
  · constructor <;> linarith
  · constructor <;> linarith

lemma atan2_abs_le_of_nonneg {x : ℝ} (y : ℝ) (hx : 0 ≤ x) :
    -(Real.pi / 2) ≤ atan2 y x ∧ atan2 y x ≤ Real.pi / 2 := by
  have hπ := Real.pi_pos
  have h1 := Real.arctan_lt_pi_div_two (y / x)
  have h2 := Real.neg_pi_div_two_lt_arctan (y / x)
  unfold atan2
  split_ifs with hx1 hx2 hy hy2 hy3
  · constructor <;> linarith
  · exact absurd hx2 (not_lt.mpr hx)
  · exact absurd hx2 (not_lt.mpr hx)
  · constructor <;> linarith
  · constructor <;> linarith
  · constructor <;> linarith

lemma atan2_zero_of_pos {x : ℝ} (hx : 0 < x) : atan2 0 x = 0 := by
  unfold atan2
  rw [if_pos hx, zero_div, Real.arctan_zero]

lemma atan2_pos_zero {y : ℝ} (hy : 0 < y) : atan2 y 0 = Real.pi / 2 := by
  unfold atan2
  rw [if_neg (lt_irrefl 0), if_neg (lt_irrefl 0), if_pos hy]

lemma atan2_zero_zero : atan2 0 0 = 0 := by
  unfold atan2
  norm_num

lemma sumSin_at_zero (C : Fin 8 → ℝ) : sumSin 0 C = 0 := by
  simp [sumSin]

lemma sumSin_zero_coeffs (σ : ℝ) (C : Fin 8 → ℝ) (h : ∀ i, C i = 0) : sumSin σ C = 0 := by
  simp [sumSin, h]

lemma seriesA1_zero : seriesA1 0 = 1 := by
  unfold seriesA1
  norm_num

lemma seriesA2_zero : seriesA2 0 = 1 := by
  unfold seriesA2
  norm_num

lemma seriesA3_zero (n : ℝ) : seriesA3 n 0 = 1 := by
  unfold seriesA3
  norm_num

lemma seriesC1_zero : ∀ i, seriesC1 0 i = 0 := by
  intro i
  fin_cases i <;> norm_num [seriesC1]

lemma seriesC1p_zero : ∀ i, seriesC1p 0 i = 0 := by
  intro i
  fin_cases i <;> norm_num [seriesC1p]

lemma seriesC2_zero : ∀ i, seriesC2 0 i = 0 := by
  intro i
  fin_cases i <;> norm_num [seriesC2]

lemma seriesC3_zero (n : ℝ) : ∀ i, seriesC3 n 0 i = 0 := by
  intro i
  simp [seriesC3]

lemma normLat_zero : normLat 0 = 0 := by
  unfold normLat
  rw [if_neg]
  norm_num

lemma mkGeodesic_eq_some {a f : ℝ} {g : Geodesic} :
    mkGeodesic a f = some g ↔ validParams a f ∧ g = mkGeodesicCore a f := by
  unfold mkGeodesic
  by_cases h : validParams a f <;> simp [h, eq_comm]

/-! Evaluation of the `Direct` pipeline for a start point on the equator
(`lat = 0`) heading due east (`azi = 90`).  There the auxiliary sphere
quantities are exact: `α0 = π/2`, `σ1 = ω1 = 0`, `ε = 0`, and
`σ2 = s12 / b`. -/

lemma dirα1_ninety : dirα1 90 = Real.pi / 2 := by
  unfold dirα1
  ring

lemma dirβ1_equator (g : Geodesic) : dirβ1 g 0 = 0 := by
  have h : dirβ1 g 0 = atan2 0 1 := by
    unfold dirβ1 dirφ1
    norm_num
  rw [h, atan2_zero_of_pos one_pos]

lemma dirα0_equator (g : Geodesic) : dirα0 g 0 90 = Real.pi / 2 := by
  have h : dirα0 g 0 90 = atan2 1 0 := by
    unfold dirα0
    rw [dirβ1_equator, dirα1_ninety]
    norm_num [hypot, Real.sin_pi_div_two, Real.cos_pi_div_two, Real.sqrt_zero]
  rw [h, atan2_pos_zero one_pos]

lemma dirσ1_equator (g : Geodesic) : dirσ1 g 0 90 = 0 := by
  have h : dirσ1 g 0 90 = atan2 0 0 := by
    unfold dirσ1
    rw [dirβ1_equator, dirα1_ninety]
    norm_num [Real.cos_pi_div_two]
  rw [h, atan2_zero_zero]

lemma dirω1_equator (g : Geodesic) : dirω1 g 0 90 = 0 := by
  have h : dirω1 g 0 90 = atan2 0 1 := by
    unfold dirω1
    rw [dirσ1_equator]
    norm_num
  rw [h, atan2_zero_of_pos one_pos]

lemma dirk2_equator (g : Geodesic) : dirk2 g 0 90 = 0 := by
  unfold dirk2
  rw [dirα0_equator]
  simp [Real.cos_pi_div_two]

lemma dirε_equator (g : Geodesic) : dirε g 0 90 = 0 := by
  unfold dirε
  rw [dirk2_equator]
  norm_num

lemma dirτ2_equator (g : Geodesic) (s12 : ℝ) : dirτ2 g 0 90 s12 = s12 / g.b := by
  unfold dirτ2 dirs2 dirs1 dirI1σ1 dirA1
  rw [dirσ1_equator, dirε_equator, seriesA1_zero, sumSin_at_zero]
  norm_num

lemma dirσ2_equator (g : Geodesic) (s12 : ℝ) : dirσ2 g 0 90 s12 = s12 / g.b := by
  unfold dirσ2
  rw [dirτ2_equator, dirε_equator, sumSin_zero_coeffs _ _ seriesC1p_zero, add_zero]

lemma dirω2_equator (g : Geodesic) (s12 : ℝ) :
    dirω2 g 0 90 s12 = atan2 (Real.sin (s12 / g.b)) (Real.cos (s12 / g.b)) := by
  unfold dirω2
  rw [dirσ2_equator, dirα0_equator, Real.sin_pi_div_two, one_mul]

lemma dirLam12_equator (g : Geodesic) (s12 : ℝ) :
    dirLam12 g 0 90 s12 =
      atan2 (Real.sin (s12 / g.b)) (Real.cos (s12 / g.b)) - g.f * (s12 / g.b) := by
  unfold dirLam12 dirLam1 dirLam2 dirI3 dirA3
  rw [dirω1_equator, dirω2_equator, dirσ1_equator, dirσ2_equator, dirα0_equator,
    dirε_equator, seriesA3_zero, sumSin_at_zero,
    sumSin_zero_coeffs _ _ (seriesC3_zero g.n), Real.sin_pi_div_two]
  ring

/-! Behaviour of the longitude adjustment. -/

lemma wrapLon_of_lt {x : ℝ} (h : x < -180) : wrapLon x = x + 360 := by
  simp only [wrapLon]
  split_ifs <;> linarith

lemma wrapLon_of_gt {x : ℝ} (h : 180 < x) : wrapLon x = x - 360 := by
  simp only [wrapLon]
  split_ifs <;> linarith

lemma wrapLon_of_mem {x : ℝ} (h1 : -180 ≤ x) (h2 : x ≤ 180) : wrapLon x = x := by
  simp only [wrapLon]
  split_ifs <;> linarith

lemma wrapLon_mem_of_abs_le {x : ℝ} (h : |x| ≤ 540) :
    -180 ≤ wrapLon x ∧ wrapLon x ≤ 180 := by
  rcases abs_le.mp h with ⟨h1, h2⟩
  simp only [wrapLon]
  split_ifs <;> constructor <;> linarith

/-! Degree conversion bounds. -/

lemma deg_scale_half {θ : ℝ} (h1 : -(Real.pi / 2) ≤ θ) (h2 : θ ≤ Real.pi / 2) :
    -90 ≤ θ * (180 / Real.pi) ∧ θ * (180 / Real.pi) ≤ 90 := by
  have hπ := Real.pi_pos
  have hd : (0:ℝ) ≤ 180 / Real.pi := by positivity
  have he : Real.pi / 2 * (180 / Real.pi) = 90 := by
    field_simp
    ring
  have hu : θ * (180 / Real.pi) ≤ Real.pi / 2 * (180 / Real.pi) :=
    mul_le_mul_of_nonneg_right h2 hd
  have hl : -(Real.pi / 2) * (180 / Real.pi) ≤ θ * (180 / Real.pi) :=
    mul_le_mul_of_nonneg_right h1 hd
  constructor <;> nlinarith

lemma deg_scale_pi {θ : ℝ} (h1 : -Real.pi < θ) (h2 : θ ≤ Real.pi) :
    -180 ≤ θ * (180 / Real.pi) ∧ θ * (180 / Real.pi) ≤ 180 := by
  have hπ := Real.pi_pos
  have hd : (0:ℝ) ≤ 180 / Real.pi := by positivity
  have he : Real.pi * (180 / Real.pi) = 180 := by
    field_simp
  have hu : θ * (180 / Real.pi) ≤ Real.pi * (180 / Real.pi) :=
    mul_le_mul_of_nonneg_right h2 hd
  have hl : -Real.pi * (180 / Real.pi) ≤ θ * (180 / Real.pi) :=
    mul_le_mul_of_nonneg_right (le_of_lt h1) hd
  constructor <;> nlinarith

/-! Spec-side definitions, written from the wording of the spec and the
claims, for comparison with the source-side embedding. -/

/-- Spec formula: `α0 = atan2(sinα1·cosβ1, hypot(cosα1, sinα1·sinβ1))`. -/
def specAlpha0 (sinβ1 cosβ1 sinα1 cosα1 : ℝ) : ℝ :=
  atan2 (sinα1 * cosβ1) (hypot cosα1 (sinα1 * sinβ1))

/-- Spec formula: `σ1 = atan2(sinβ1, cosα1·cosβ1)`. -/
def specSigma1 (sinβ1 cosβ1 cosα1 : ℝ) : ℝ :=
  atan2 sinβ1 (cosα1 * cosβ1)

/-- Spec formula of the hybrid sub-solver:
`α2 = atan2(sinα0, sqrt((cosα1·cosβ1)² + (cosβ2−cosβ1)(cosβ2+cosβ1)))`. -/
def specAlpha2 (sinβ1 cosβ1 cosβ2 sinα1 cosα1 : ℝ) : ℝ :=
  atan2 (Real.sin (specAlpha0 sinβ1 cosβ1 sinα1 cosα1))
    (Real.sqrt ((cosα1 * cosβ1) ^ 2 + (cosβ2 - cosβ1) * (cosβ2 + cosβ1)))

/-- Spec formula: `σ2 = atan2(sinβ2, cosα2·cosβ2)`. -/
def specSigma2 (sinβ2 cosβ2 α2 : ℝ) : ℝ :=
  atan2 sinβ2 (Real.cos α2 * cosβ2)

/-- Spec formula: `k² = e′2·cos²α0`, `t = √(1+k²)`, `ε = (t−1)/(t+1)`. -/
def specEps (g : Geodesic) (α0 : ℝ) : ℝ :=
  (Real.sqrt (1 + g.ep2 * Real.cos α0 ^ 2) - 1) / (Real.sqrt (1 + g.ep2 * Real.cos α0 ^ 2) + 1)

/-- Spec formula: `I1(σ) = A1·(σ + Σsin-correction(σ, C1))`. -/
def specI1 (ε σ : ℝ) : ℝ :=
  seriesA1 ε * (σ + sumSin σ (seriesC1 ε))

/-- Spec clamping rule: near-polar latitudes are replaced by
`90·(1−2⁻³⁸)` carrying the sign of the original latitude. -/
def specClampLat (lat1 : ℝ) : ℝ :=
  if |lat1| > 90 * (1 - 1 / 2 ^ 38) then
    (if lat1 < 0 then -(90 * (1 - 1 / 2 ^ 38)) else 90 * (1 - 1 / 2 ^ 38))
  else lat1

lemma normLat_eq_specClampLat (lat1 : ℝ) : normLat lat1 = specClampLat lat1 := by
  unfold normLat specClampLat copysign
  have hc : |(90 : ℝ) * (1 - 1 / 2 ^ 38)| = 90 * (1 - 1 / 2 ^ 38) := abs_of_nonneg (by norm_num)
  split_ifs <;> simp only [hc]

/-- Claim C2: in stage 3 of `Direct`, the per-call auxiliary parameter is
`ε = (t−1)/(t+1)` with `t = √(1+k²)`, `k² = e′2·cos²α0`; the true arc
length of the start point is `s1 = b·A1(ε)·(σ1 + Σsin-correction(σ1, C1))`;
`s2 = s1 + s12`; and the end auxiliary arc is the single closed-form
substitution `σ2 = τ2 + Σsin-correction(τ2, C1p)` with `τ2 = s2/(b·A1)`. -/
theorem direct_stage3_formulas (g : Geodesic) (lat azi s12 : ℝ) :
    dirε g lat azi = specEps g (dirα0 g lat azi) ∧
    dirs1 g lat azi =
      g.b * seriesA1 (dirε g lat azi) *
        (dirσ1 g lat azi + sumSin (dirσ1 g lat azi) (seriesC1 (dirε g lat azi))) ∧
    dirs2 g lat azi s12 = dirs1 g lat azi + s12 ∧
    dirτ2 g lat azi s12 = dirs2 g lat azi s12 / (g.b * seriesA1 (dirε g lat azi)) ∧
    dirσ2 g lat azi s12 =
      dirτ2 g lat azi s12 + sumSin (dirτ2 g lat azi s12) (seriesC1p (dirε g lat azi)) := by
  refine ⟨?_, ?_, rfl, rfl, rfl⟩
  · unfold dirε dirk2 specEps
    rw [show g.ep2 * Real.cos (dirα0 g lat azi) ^ 2 =
        g.ep2 * Real.cos (dirα0 g lat azi) * Real.cos (dirα0 g lat azi) from by ring]
  · unfold dirs1 dirI1σ1 dirA1
    ring

/-- Claim C4: `hybrid` solves triangle NEA exactly as stage 2 of `Direct`
(same `α0`, `σ1` formulas), computes `α2` and `σ2` by the closed-form
triangle-NEB formulas with no root-finding iteration, and returns
`s12 = b·(I1(σ2) − I1(σ1))` with the same A1/C1 series as stage 3. -/
theorem hybrid_formula (g : Geodesic) (sinβ1 cosβ1 sinβ2 cosβ2 sinα1 cosα1 : ℝ) :
    hybrid g sinβ1 cosβ1 sinβ2 cosβ2 sinα1 cosα1 =
      (specAlpha2 sinβ1 cosβ1 cosβ2 sinα1 cosα1,
        g.b * (specI1 (specEps g (specAlpha0 sinβ1 cosβ1 sinα1 cosα1))
                 (specSigma2 sinβ2 cosβ2 (specAlpha2 sinβ1 cosβ1 cosβ2 sinα1 cosα1)) -
               specI1 (specEps g (specAlpha0 sinβ1 cosβ1 sinα1 cosα1))
                 (specSigma1 sinβ1 cosβ1 cosα1))) ∧
    (∀ lat azi : ℝ,
      dirα0 g lat azi =
        specAlpha0 (Real.sin (dirβ1 g lat)) (Real.cos (dirβ1 g lat))
          (Real.sin (dirα1 azi)) (Real.cos (dirα1 azi)) ∧
      dirσ1 g lat azi =
        specSigma1 (Real.sin (dirβ1 g lat)) (Real.cos (dirβ1 g lat)) (Real.cos (dirα1 azi))) := by
  constructor
  · simp only [hybrid, specAlpha2, specAlpha0, specSigma2, specSigma1, specEps, specI1]
    rw [show sq (cosα1 * cosβ1) = (cosα1 * cosβ1) ^ 2 from by unfold sq; ring,
      show g.ep2 * Real.cos (atan2 (sinα1 * cosβ1) (hypot cosα1 (sinα1 * sinβ1))) ^ 2 =
        g.ep2 * Real.cos (atan2 (sinα1 * cosβ1) (hypot cosα1 (sinα1 * sinβ1))) *
          Real.cos (atan2 (sinα1 * cosβ1) (hypot cosα1 (sinα1 * sinβ1))) from by ring]
    rw [Prod.mk.injEq]
    exact ⟨rfl, by ring⟩
  · intro lat azi
    exact ⟨rfl, rfl⟩

/-- Claim C5 (counterexample): at the boundary input `f = 2⁻²⁶` the
construction is accepted and the stored flattening is zeroed, although
`2⁻²⁶` is not smaller than `2⁻²⁶` — refuting the claim that `f` is
treated as 0 only when it is strictly below the threshold. -/
theorem newGeodesic_threshold_boundary :
    mkGeodesic 1 (1 / 2 ^ 26) = some (mkGeodesicCore 1 (1 / 2 ^ 26)) ∧
    (mkGeodesicCore 1 (1 / 2 ^ 26)).f = 0 ∧ ¬((1 : ℝ) / 2 ^ 26 < 1 / 2 ^ 26) := by
  refine ⟨?_, ?_, by norm_num⟩
  · unfold mkGeodesic
    rw [if_pos]
    unfold validParams
    norm_num
  · show zeroF (1 / 2 ^ 26) = 0
    unfold zeroF
    rw [if_pos le_rfl]

/-- Claim C5 (amended): model construction fails exactly when `a` is
outside `[1, 1e10]` or `f` is outside `[0, 1/150]`; for accepted inputs
the stored flattening is exactly 0 when and only when `f ≤ 2⁻²⁶`
(boundary included), and any accepted `f` above the threshold is kept. -/
theorem newGeodesic_validation (a f : ℝ) :
    (mkGeodesic a f = none ↔
      ¬((1 ≤ a ∧ a ≤ 1e10) ∧ (0 ≤ f ∧ f ≤ 1 / 150))) ∧
    ((mkGeodesicCore a f).f = 0 ↔ f ≤ 1 / 2 ^ 26) ∧
    (¬(f ≤ 1 / 2 ^ 26) → (mkGeodesicCore a f).f = f) := by
  refine ⟨?_, ?_, ?_⟩
  · show mkGeodesic a f = none ↔ ¬validParams a f
    unfold mkGeodesic
    split_ifs with h <;> simp [h]
  · show zeroF f = 0 ↔ _
    unfold zeroF
    split_ifs with h
    · exact iff_of_true rfl h
    · constructor
      · intro h0
        exact absurd (by rw [h0]; norm_num : f ≤ 1 / 2 ^ 26) h
      · intro h0
        exact absurd h0 h
  · intro h
    show zeroF f = f
    unfold zeroF
    rw [if_neg h]

/-- Witness for the amended claim C5 at `a = 1`, `f = 1/200`. -/
theorem newGeodesic_validation_witness :
    ¬((1 : ℝ) / 200 ≤ 1 / 2 ^ 26) ∧ (mkGeodesicCore 1 (1 / 200)).f = 1 / 200 :=
  ⟨by norm_num, (newGeodesic_validation 1 (1 / 200)).2.2 (by norm_num)⟩

/-- Claim C6: `Direct` fails with InvalidArgument exactly when `lat1` is
outside `[−90,90]`, `lon1` outside `[−180,180]`, `azi1` outside
`[−180,180]`, or `s12` outside `[0,1e11]`; for accepted inputs the
latitude used by the solver is the spec clamp (replacement by
`90·(1−2⁻³⁸)` with the original sign exactly when `|lat1|` exceeds that
value) and no other input is altered by normalization. -/
theorem direct_validation (g : Geodesic) (lat1 lon1 azi1 s12 : ℝ) :
    (Direct g lat1 lon1 azi1 s12 = none ↔
      ¬((-90 ≤ lat1 ∧ lat1 ≤ 90) ∧ (-180 ≤ lon1 ∧ lon1 ≤ 180) ∧
        (-180 ≤ azi1 ∧ azi1 ≤ 180) ∧ (0 ≤ s12 ∧ s12 ≤ 1e11))) ∧
    normLat lat1 = specClampLat lat1 ∧
    (validDirect lat1 lon1 azi1 s12 →
      Direct g lat1 lon1 azi1 s12 =
        some (directCoreN g (specClampLat lat1) lon1 azi1 s12)) := by
  refine ⟨?_, normLat_eq_specClampLat lat1, ?_⟩
  · show Direct g lat1 lon1 azi1 s12 = none ↔ ¬validDirect lat1 lon1 azi1 s12
    unfold Direct
    split_ifs with h <;> simp [h]
  · intro hv
    unfold Direct
    rw [if_pos hv]
    unfold directCore
    rw [normLat_eq_specClampLat]

/-- Witness for claim C6 at `lat1 = 90` (clamped toward the pole). -/
theorem direct_validation_witness :
    validDirect 90 0 0 0 ∧ specClampLat 90 = 90 * (1 - 1 / 2 ^ 38) ∧
    Direct (mkGeodesicCore 1 0) 90 0 0 0 =
      some (directCoreN (mkGeodesicCore 1 0) (90 * (1 - 1 / 2 ^ 38)) 0 0 0) := by
  have hv : validDirect 90 0 0 0 := by
    unfold validDirect
    norm_num
  have hc : specClampLat 90 = 90 * (1 - 1 / 2 ^ 38) := by
    unfold specClampLat
    rw [if_pos (by norm_num), if_neg (by norm_num)]
  have h := (direct_validation (mkGeodesicCore 1 0) 90 0 0 0).2.2 hv
  rw [hc] at h
  exact ⟨hv, hc, h⟩

/-- Claim C7: a model constructed with `f = 0` gives per-call expansion
parameter `ε = 0`, and at `ε = 0` the series take their spherical values:
`A1 = A2 = A3 = 1` and every C1, C1p, C2 and C3 coefficient is 0, so a
Direct call degenerates to great-circle navigation. -/
theorem spherical_limit (a lat azi n : ℝ) :
    (mkGeodesicCore a 0).f = 0 ∧
    dirε (mkGeodesicCore a 0) lat azi = 0 ∧
    seriesA1 0 = 1 ∧ seriesA2 0 = 1 ∧ seriesA3 n 0 = 1 ∧
    (∀ i, seriesC1 0 i = 0) ∧ (∀ i, seriesC1p 0 i = 0) ∧
    (∀ i, seriesC2 0 i = 0) ∧ (∀ i, seriesC3 n 0 i = 0) := by
  have hf : zeroF 0 = 0 := by
    unfold zeroF
    rw [if_pos (by norm_num)]
  have hep : (mkGeodesicCore a 0).ep2 = 0 := by
    show zeroF 0 * (2 - zeroF 0) / ((1 - zeroF 0) * (1 - zeroF 0)) = 0
    rw [hf]
    norm_num
  refine ⟨hf, ?_, seriesA1_zero, seriesA2_zero, seriesA3_zero n, seriesC1_zero,
    seriesC1p_zero, seriesC2_zero, seriesC3_zero n⟩
  unfold dirε dirk2
  rw [hep]
  norm_num

/-- Claim C8: the constructed model satisfies `b = a·(1−f)`,
`n = f/(2−f)`, `e2 = f·(2−f)` and `e′2 = e2/(1−f)²`, where `f` is the
stored (post-zeroing) flattening. -/
theorem model_constants (a f : ℝ) (h1 : 1 ≤ a) (h2 : a ≤ 1e10) (h3 : 0 ≤ f)
    (h4 : f ≤ 1 / 150) :
    mkGeodesic a f = some (mkGeodesicCore a f) ∧
    (mkGeodesicCore a f).b = (mkGeodesicCore a f).a * (1 - (mkGeodesicCore a f).f) ∧
    (mkGeodesicCore a f).n = (mkGeodesicCore a f).f / (2 - (mkGeodesicCore a f).f) ∧
    (mkGeodesicCore a f).e2 = (mkGeodesicCore a f).f * (2 - (mkGeodesicCore a f).f) ∧
    (mkGeodesicCore a f).ep2 = (mkGeodesicCore a f).e2 / (1 - (mkGeodesicCore a f).f) ^ 2 := by
  refine ⟨?_, rfl, rfl, rfl, ?_⟩
  · unfold mkGeodesic
    rw [if_pos ⟨⟨h1, h2⟩, h3, h4⟩]
  · show zeroF f * (2 - zeroF f) / ((1 - zeroF f) * (1 - zeroF f)) =
      zeroF f * (2 - zeroF f) / (1 - zeroF f) ^ 2
    rw [show ((1 : ℝ) - zeroF f) * (1 - zeroF f) = (1 - zeroF f) ^ 2 from by ring]

/-- Witness for claim C8 at `a = 2`, `f = 1/200`. -/
theorem model_constants_witness :
    (1 : ℝ) ≤ 2 ∧ (0 : ℝ) ≤ 1 / 200 ∧
    mkGeodesic 2 (1 / 200) = some (mkGeodesicCore 2 (1 / 200)) ∧
    (mkGeodesicCore 2 (1 / 200)).b =
      (mkGeodesicCore 2 (1 / 200)).a * (1 - (mkGeodesicCore 2 (1 / 200)).f) := by
  have h := model_constants 2 (1 / 200) (by norm_num) (by norm_num) (by norm_num) (by norm_num)
  exact ⟨by norm_num, by norm_num, h.1, h.2.1⟩

/-- Claim C9: `hybrid` does not validate its inputs; at the consistent
sine/cosine input `sinβ1 = 0, cosβ1 = 1, sinβ2 = 1, cosβ2 = 0, sinα1 = 1,
cosα1 = 0` the radicand of the triangle-NEB square root is strictly
negative, so (in the NaN-tracking embedding) both the returned ending
azimuth and the returned arc length are NaN. -/
theorem hybrid_nan_radicand (g : Geodesic) :
    sq ((0 : ℝ) * 1) + ((0 : ℝ) - 1) * ((0 : ℝ) + 1) < 0 ∧
    hybridF g 0 1 1 0 1 0 = (none, none) := by
  have hr : sq ((0 : ℝ) * 1) + ((0 : ℝ) - 1) * ((0 : ℝ) + 1) = -1 := by
    unfold sq
    ring
  have hs : sqrtF (sq ((0 : ℝ) * 1) + ((0 : ℝ) - 1) * ((0 : ℝ) + 1)) = none := by
    unfold sqrtF
    rw [if_pos (by rw [hr]; norm_num)]
  constructor
  · rw [hr]
    norm_num
  · simp only [hybridF]
    rw [hs]

/-- Claim C10: in the Solution of a valid `Direct` call the fields
`Lon1`, `Azi1`, `S12` echo the call arguments, and `Lat1` is the argument
latitude unless the near-polar clamp applied, in which case it is the
clamped value with the original sign (over `ℝ` the negative-zero
normalization `nnz` is the identity). -/
theorem direct_echo_fields (g : Geodesic) (lat1 lon1 azi1 s12 : ℝ)
    (_hv : validDirect lat1 lon1 azi1 s12) :
    (directCore g lat1 lon1 azi1 s12).Lon1 = lon1 ∧
    (directCore g lat1 lon1 azi1 s12).Azi1 = azi1 ∧
    (directCore g lat1 lon1 azi1 s12).S12 = s12 ∧
    (directCore g lat1 lon1 azi1 s12).Lat1 = specClampLat lat1 ∧
    (¬(|lat1| > 90 * (1 - 1 / 2 ^ 38)) →
      (directCore g lat1 lon1 azi1 s12).Lat1 = lat1) ∧
    (|lat1| > 90 * (1 - 1 / 2 ^ 38) →
      (directCore g lat1 lon1 azi1 s12).Lat1 = copysign (90 * (1 - 1 / 2 ^ 38)) lat1) := by
  have hLat1 : (directCore g lat1 lon1 azi1 s12).Lat1 = normLat lat1 := nnz_eq _
  refine ⟨nnz_eq _, nnz_eq _, nnz_eq _, by rw [hLat1, normLat_eq_specClampLat], ?_, ?_⟩
  · intro h
    rw [hLat1]
    unfold normLat
    rw [if_neg h]
  · intro h
    rw [hLat1]
    unfold normLat
    rw [if_pos h]

/-- Witness for claim C10 at `(10, 20, 30, 40)` (no clamp). -/
theorem direct_echo_fields_witness :
    validDirect 10 20 30 40 ∧
    (directCore (mkGeodesicCore 1 0) 10 20 30 40).Lon1 = 20 ∧
    (directCore (mkGeodesicCore 1 0) 10 20 30 40).Lat1 = 10 := by
  have hv : validDirect 10 20 30 40 := by
    unfold validDirect
    norm_num
  have h := direct_echo_fields (mkGeodesicCore 1 0) 10 20 30 40 hv
  exact ⟨hv, h.1, h.2.2.2.2.1 (by norm_num)⟩

/-! Projections of the assembled Solution (using that `nnz` is the
identity over `ℝ`). -/

lemma directCore_Lat2 (g : Geodesic) (lat1 lon1 azi1 s12 : ℝ) :
    (directCore g lat1 lon1 azi1 s12).Lat2 =
      dirφ2 g (normLat lat1) azi1 s12 * (180 / Real.pi) := nnz_eq _

lemma directCore_Lon2 (g : Geodesic) (lat1 lon1 azi1 s12 : ℝ) :
    (directCore g lat1 lon1 azi1 s12).Lon2 =
      wrapLon (lon1 + dirLam12 g (normLat lat1) azi1 s12 * (180 / Real.pi)) := nnz_eq _

lemma directCore_Azi2 (g : Geodesic) (lat1 lon1 azi1 s12 : ℝ) :
    (directCore g lat1 lon1 azi1 s12).Azi2 =
      dirα2 g (normLat lat1) azi1 s12 * (180 / Real.pi) := nnz_eq _

/-- Claim C1 (amended): for every valid input and validly constructed
model, the Solution of `Direct` has `Lat2 ∈ [−90,90]` and
`Azi2 ∈ [−180,180]`, and `Lon2 ∈ [−180,180]` whenever the unwrapped
destination longitude `lon1 + λ12·(180/π)` lies within `[−540,540]`
(outside that range the single ±360 adjustment cannot reach `[−180,180]`;
over the real-number model no field can be NaN or infinite). -/
theorem direct_output_bounds (a f lat1 lon1 azi1 s12 : ℝ) (g : Geodesic)
    (hg : mkGeodesic a f = some g) (hv : validDirect lat1 lon1 azi1 s12) :
    Direct g lat1 lon1 azi1 s12 = some (directCore g lat1 lon1 azi1 s12) ∧
    (-90 ≤ (directCore g lat1 lon1 azi1 s12).Lat2 ∧
      (directCore g lat1 lon1 azi1 s12).Lat2 ≤ 90) ∧
    (-180 ≤ (directCore g lat1 lon1 azi1 s12).Azi2 ∧
      (directCore g lat1 lon1 azi1 s12).Azi2 ≤ 180) ∧
    (|lon1 + dirLam12 g (normLat lat1) azi1 s12 * (180 / Real.pi)| ≤ 540 →
      -180 ≤ (directCore g lat1 lon1 azi1 s12).Lon2 ∧
        (directCore g lat1 lon1 azi1 s12).Lon2 ≤ 180) := by
  obtain ⟨hp, hg2⟩ := mkGeodesic_eq_some.mp hg
  subst hg2
  have hf1 : (mkGeodesicCore a f).f ≤ 1 := by
    show zeroF f ≤ 1
    unfold zeroF
    split_ifs with h
    · norm_num
    · linarith [hp.2.2]
  have hβ2 : -(Real.pi / 2) ≤ dirβ2 (mkGeodesicCore a f) (normLat lat1) azi1 s12 ∧
      dirβ2 (mkGeodesicCore a f) (normLat lat1) azi1 s12 ≤ Real.pi / 2 :=
    atan2_abs_le_of_nonneg _ (Real.sqrt_nonneg _)
  have hcos : 0 ≤ Real.cos (dirβ2 (mkGeodesicCore a f) (normLat lat1) azi1 s12) :=
    Real.cos_nonneg_of_mem_Icc ⟨hβ2.1, hβ2.2⟩
  have hφ2 : -(Real.pi / 2) ≤ dirφ2 (mkGeodesicCore a f) (normLat lat1) azi1 s12 ∧
      dirφ2 (mkGeodesicCore a f) (normLat lat1) azi1 s12 ≤ Real.pi / 2 :=
    atan2_abs_le_of_nonneg _ (mul_nonneg (by linarith) hcos)
  have hα2 : -Real.pi < dirα2 (mkGeodesicCore a f) (normLat lat1) azi1 s12 ∧
      dirα2 (mkGeodesicCore a f) (normLat lat1) azi1 s12 ≤ Real.pi :=
    atan2_mem _ _
  refine ⟨by unfold Direct; rw [if_pos hv], ?_, ?_, ?_⟩
  · rw [directCore_Lat2]
    exact deg_scale_half hφ2.1 hφ2.2
  · rw [directCore_Azi2]
    exact deg_scale_pi hα2.1 hα2.2
  · intro h
    rw [directCore_Lon2]
    exact wrapLon_mem_of_abs_le h

/-- Witness for the amended claim C1: spherical model `a = 1`, `f = 0`,
equatorial start, due-east azimuth, zero distance. -/
theorem direct_output_bounds_witness :
    (mkGeodesic 1 0 = some (mkGeodesicCore 1 0) ∧ validDirect 0 0 90 0 ∧
      |0 + dirLam12 (mkGeodesicCore 1 0) (normLat 0) 90 0 * (180 / Real.pi)| ≤ 540) ∧
    (-180 ≤ (directCore (mkGeodesicCore 1 0) 0 0 90 0).Lon2 ∧
      (directCore (mkGeodesicCore 1 0) 0 0 90 0).Lon2 ≤ 180) := by
  have hg : mkGeodesic 1 0 = some (mkGeodesicCore 1 0) := by
    unfold mkGeodesic
    rw [if_pos]
    unfold validParams
    norm_num
  have hv : validDirect 0 0 90 0 := by
    unfold validDirect
    norm_num
  have hlam : dirLam12 (mkGeodesicCore 1 0) (normLat 0) 90 0 = 0 := by
    rw [normLat_zero, dirLam12_equator, zero_div, Real.sin_zero, Real.cos_zero,
      atan2_zero_of_pos one_pos]
    ring
  have habs : |0 + dirLam12 (mkGeodesicCore 1 0) (normLat 0) 90 0 * (180 / Real.pi)| ≤ 540 := by
    rw [hlam]
    norm_num
  exact ⟨⟨hg, hv, habs⟩, (direct_output_bounds 1 0 0 0 90 0 _ hg hv).2.2.2 habs⟩

/-! Evaluation helpers for the longitude counterexamples, on the model
`a = 1`, `f = 1/150`. -/

lemma gex_b : (mkGeodesicCore 1 (1 / 150)).b = 149 / 150 := by
  show 1 * (1 - zeroF (1 / 150)) = 149 / 150
  unfold zeroF
  rw [if_neg (by norm_num)]
  norm_num

lemma gex_f : (mkGeodesicCore 1 (1 / 150)).f = 1 / 150 := by
  show zeroF (1 / 150) = 1 / 150
  unfold zeroF
  rw [if_neg (by norm_num)]

lemma directCore_equator_lon2 (s12 : ℝ) :
    (directCore (mkGeodesicCore 1 (1 / 150)) 0 0 90 s12).Lon2 =
      wrapLon ((atan2 (Real.sin (s12 / (149 / 150))) (Real.cos (s12 / (149 / 150))) -
        1 / 150 * (s12 / (149 / 150))) * (180 / Real.pi)) := by
  rw [directCore_Lon2, normLat_zero, dirLam12_equator, gex_b, gex_f, zero_add]

lemma wrap_bound_helper (c ω : ℝ) (hc : 64 ≤ c) (hω : ω ≤ Real.pi) :
    wrapLon ((ω - c) * (180 / Real.pi)) < -180 := by
  have hπu : Real.pi < 3.15 := Real.pi_lt_d2
  have hπ : 0 < Real.pi := Real.pi_pos
  have h1 : ω - c < -60 := by linarith
  have hd0 : 0 < 180 / Real.pi := by positivity
  have hd : (57 : ℝ) < 180 / Real.pi := by
    rw [lt_div_iff₀ hπ]
    linarith
  have h2 : (ω - c) * (180 / Real.pi) < -60 * (180 / Real.pi) :=
    mul_lt_mul_of_pos_right h1 hd0
  have h3 : (-60 : ℝ) * (180 / Real.pi) < -60 * 57 :=
    mul_lt_mul_of_neg_left hd (by norm_num)
  have hx : (ω - c) * (180 / Real.pi) < -3420 := by linarith
  rw [wrapLon_of_lt (by linarith)]
  linarith

/-- Claim C1 (counterexample): on the model `a = 1`, `f = 1/150`, the
valid call `Direct 0 0 90 10000` produces `Lon2 < -180`: the longitude
correction exceeds a full turn and the single ±360 adjustment cannot
bring the result into `[−180,180]`. -/
theorem direct_lon2_escapes_range :
    validDirect 0 0 90 10000 ∧ validParams 1 (1 / 150) ∧
    (directCore (mkGeodesicCore 1 (1 / 150)) 0 0 90 10000).Lon2 < -180 := by
  refine ⟨by unfold validDirect; norm_num, by unfold validParams; norm_num, ?_⟩
  rw [directCore_equator_lon2,
    show (1 : ℝ) / 150 * (10000 / (149 / 150)) = 10000 / 149 from by norm_num]
  exact wrap_bound_helper (10000 / 149) _ (by norm_num) (atan2_mem _ _).2

/-- Claim C3 (counterexample): on the model `a = 1`, `f = 1/150`, the
valid call `Direct 0 0 90 20000` has a destination longitude outside
`[−180,180]`: the single ±360 adjustment does not wrap the sum into
range. -/
theorem direct_lon2_wrap_insufficient :
    validDirect 0 0 90 20000 ∧ validParams 1 (1 / 150) ∧
    ¬(-180 ≤ (directCore (mkGeodesicCore 1 (1 / 150)) 0 0 90 20000).Lon2 ∧
      (directCore (mkGeodesicCore 1 (1 / 150)) 0 0 90 20000).Lon2 ≤ 180) := by
  refine ⟨by unfold validDirect; norm_num, by unfold validParams; norm_num, fun hcontra => ?_⟩
  have h : (directCore (mkGeodesicCore 1 (1 / 150)) 0 0 90 20000).Lon2 < -180 := by
    rw [directCore_equator_lon2,
      show (1 : ℝ) / 150 * (20000 / (149 / 150)) = 20000 / 149 from by norm_num]
    exact wrap_bound_helper (20000 / 149) _ (by norm_num) (atan2_mem _ _).2
  linarith [hcontra.1]

/-- Claim C3 (amended): for every valid call, the `Lon2` field equals
`lon1` plus the degree conversion of
`λ12 = (ω2 − f·sinα0·I3(σ2)) − (ω1 − f·sinα0·I3(σ1))` with
`I3(σ) = A3·(σ + Σsin-correction(σ, C3))`, adjusted by +360 if below
−180 and then by −360 if above 180 (at most one adjustment fires); the
result lies in `[−180,180]` whenever the unadjusted sum lies within
`[−540,540]`. -/
theorem direct_lon2_assembly (g : Geodesic) (lat1 lon1 azi1 s12 : ℝ)
    (hv : validDirect lat1 lon1 azi1 s12) :
    Direct g lat1 lon1 azi1 s12 = some (directCore g lat1 lon1 azi1 s12) ∧
    (directCore g lat1 lon1 azi1 s12).Lon2 =
      wrapLon (lon1 +
        ((dirω2 g (normLat lat1) azi1 s12 -
            g.f * Real.sin (dirα0 g (normLat lat1) azi1) *
              (seriesA3 g.n (dirε g (normLat lat1) azi1) *
                (dirσ2 g (normLat lat1) azi1 s12 +
                  sumSin (dirσ2 g (normLat lat1) azi1 s12)
                    (seriesC3 g.n (dirε g (normLat lat1) azi1))))) -
          (dirω1 g (normLat lat1) azi1 -
            g.f * Real.sin (dirα0 g (normLat lat1) azi1) *
              (seriesA3 g.n (dirε g (normLat lat1) azi1) *
                (dirσ1 g (normLat lat1) azi1 +
                  sumSin (dirσ1 g (normLat lat1) azi1)
                    (seriesC3 g.n (dirε g (normLat lat1) azi1)))))) *
          (180 / Real.pi)) ∧
    (∀ x : ℝ, x < -180 → wrapLon x = x + 360) ∧
    (∀ x : ℝ, 180 < x → wrapLon x = x - 360) ∧
    (∀ x : ℝ, -180 ≤ x → x ≤ 180 → wrapLon x = x) ∧
    (∀ x : ℝ, |x| ≤ 540 → -180 ≤ wrapLon x ∧ wrapLon x ≤ 180) := by
  refine ⟨by unfold Direct; rw [if_pos hv], ?_,
    fun x h => wrapLon_of_lt h, fun x h => wrapLon_of_gt h,
    fun x h1 h2 => wrapLon_of_mem h1 h2, fun x h => wrapLon_mem_of_abs_le h⟩
  rw [directCore_Lon2]
  rfl

/-- Witness for the amended claim C3 at a valid call, with the
single-adjustment rule evaluated at the concrete prewrap longitude 500. -/
theorem direct_lon2_assembly_witness :
    validDirect 10 20 30 5 ∧ wrapLon 500 = 140 := by
  have h := (direct_lon2_assembly (mkGeodesicCore 1 0) 10 20 30 5
    (by unfold validDirect; norm_num)).2.2.2.1 500 (by norm_num)
  refine ⟨by unfold validDirect; norm_num, ?_⟩
  rw [h]
  norm_num

end Kgeo
